import Mathlib

/-!
Shallow embedding of the ferro-orm core (Rust sources under src/):
the typed value decoder (operations.rs, decode_column!), the query AST
and compiler (query.rs), the DDL foreign-key compiler (schema.rs), and
the connection / transaction / identity-map state layer (state.rs,
connection.rs, operations.rs).  Pure functions of the source become Lean
functions; the global mutable registries become an explicit state record;
fallible paths (Rust panics via unwrap, PyErr returns) become Option and
Except.  External collaborators (the sqlx driver's try_get typed column
retrieval, serde_json's parser, sea_query's SQL text realization) are
modelled at their interface boundary; every such definition carries a doc
comment saying what it models.
-/

set_option autoImplicit false

namespace Ferro

/-! ### JSON values (the shape of serde_json::Value as the source consumes it) -/

/-- A JSON document (serde_json::Value).  serde's Number is split into
the i64-representable case (`numInt`, what Rust's `as_i64` returns) and
the floating case (`numFloat`, what `as_f64` returns); the float payload
is an uninterpreted bit carrier, see `F64`. -/
inductive JsonValue where
  | null
  | bool (b : Bool)
  | numInt (i : Int)
  | numFloat (bits : Nat)
  | str (s : String)
  | arr (elems : List JsonValue)
  | obj (fields : List (String × JsonValue))

/-- Carrier for f64 payloads.  Machine floating point is not modelled:
the source only ever passes these values through unchanged or prints
them, and no theorem in this development depends on float semantics or
on the rendering chosen by `floatToString`. -/
abbrev F64 := Nat

/-- Stand-in for Rust's f64 Display; uninterpreted (see `F64`). -/
def floatToString (f : F64) : String := toString f

/-- Escape one character the way serde_json's compact serializer does for
the characters this development ever feeds it (quote and backslash;
control-character escapes are not exercised by any input here). -/
def escapeJsonChar (c : Char) : String :=
  if c = '"' then "\\\"" else if c = '\\' then "\\\\" else String.singleton c

/-- String-body escaping for the serializer. -/
def escapeJsonString (s : String) : String :=
  String.join (s.toList.map escapeJsonChar)

mutual

/-- Compact rendering of a JSON value (serde_json's Value::to_string),
used by the source for LIKE patterns and for serializing object/array
operands. -/
def jsonToString : JsonValue → String
  | .null => "null"
  | .bool true => "true"
  | .bool false => "false"
  | .numInt i => toString i
  | .numFloat bits => floatToString bits
  | .str s => "\"" ++ escapeJsonString s ++ "\""
  | .arr xs => "[" ++ jsonListToString xs ++ "]"
  | .obj fs => "\x7b" ++ jsonObjToString fs ++ "\x7d"

/-- Comma-joined rendering of array elements. -/
def jsonListToString : List JsonValue → String
  | [] => ""
  | [x] => jsonToString x
  | x :: y :: xs => jsonToString x ++ "," ++ jsonListToString (y :: xs)

/-- Comma-joined rendering of object fields. -/
def jsonObjToString : List (String × JsonValue) → String
  | [] => ""
  | [(k, v)] => "\"" ++ escapeJsonString k ++ "\":" ++ jsonToString v
  | (k, v) :: f :: fs =>
      "\"" ++ escapeJsonString k ++ "\":" ++ jsonToString v ++ "," ++ jsonObjToString (f :: fs)

end

/-- Field lookup on a JSON object (serde_json's Value::get with a string
key): some value for the first matching field of an object, none on
non-objects and missing keys. -/
def jsonGet (v : JsonValue) (key : String) : Option JsonValue :=
  match v with
  | .obj fields => (fields.find? (fun f => f.1 == key)).map (fun f => f.2)
  | _ => none

/-- Value::as_str. -/
def jsonAsStr : JsonValue → Option String
  | .str s => some s
  | _ => none

/-- Value::as_array. -/
def jsonAsArr : JsonValue → Option (List JsonValue)
  | .arr xs => some xs
  | _ => none

/-- Value::is_array (what `val.as_array()` being Some means in query.rs). -/
def JsonValue.isArr : JsonValue → Bool
  | .arr _ => true
  | _ => false

/-! ### Sea-query bind values (sea_query::Value, the constructors the source builds) -/

/-- A bound SQL value (sea_query::Value restricted to the variants the
source constructs: BigInt, Double, String, Bool, each with an optional
payload; `.string none` is the NULL binding the source uses for JSON
null). -/
inductive SeaValue where
  | bigInt (v : Option Int)
  | double (v : Option F64)
  | string (v : Option String)
  | bool (v : Option Bool)
  deriving DecidableEq

/-! ### Wire values and typed column retrieval (sqlx interface boundary) -/

/-- A raw column value as the sqlx Any driver delivers it: one native
wire representation per value. -/
inductive WireValue where
  | int (v : Int)
  | float (f : F64)
  | text (s : String)
  | blob (bytes : List Nat)
  | boolean (b : Bool)
  | null
  deriving DecidableEq

/-- Modelled from the spec: sqlx's `row.try_get::<i64, _>` at the Any
driver, which decodes successfully exactly when the stored wire kind is
the integer representation (the spec's try-cascade over native wire
representations presumes one matching representation per value). -/
def tryGetI64 : WireValue → Option Int
  | .int v => some v
  | _ => none

/-- Modelled from the spec: `row.try_get::<f64, _>`, succeeding exactly
on the float wire representation. -/
def tryGetF64 : WireValue → Option F64
  | .float f => some f
  | _ => none

/-- Modelled from the spec: `row.try_get::<String, _>`, succeeding
exactly on the text wire representation. -/
def tryGetString : WireValue → Option String
  | .text s => some s
  | _ => none

/-- Modelled from the spec: `row.try_get::<Vec<u8>, _>`, succeeding
exactly on the blob wire representation. -/
def tryGetBlob : WireValue → Option (List Nat)
  | .blob b => some b
  | _ => none

/-- Modelled from the spec: `row.try_get::<bool, _>`, succeeding exactly
on the boolean wire representation. -/
def tryGetBool : WireValue → Option Bool
  | .boolean b => some b
  | _ => none

/-! ### Decoded domain values (state.rs, RustValue) -/

/-- The tagged domain value a decoded column produces (state.rs,
enum RustValue). -/
inductive RustValue where
  | bigInt (i : Int)
  | double (f : F64)
  | string (s : String)
  | bool (b : Bool)
  | dateTime (s : String)
  | date (s : String)
  | json (v : JsonValue)
  | blob (bytes : List Nat)
  | uuid (s : String)
  | decimal (s : String)
  | none

/-- UTF-8 bytes of a string (String::into_bytes in the binary-format
fallback branch). -/
def stringToBytes (s : String) : List Nat :=
  s.toUTF8.toList.map (fun b => b.toNat)

/-! ### The column decoder (operations.rs, decode_column! lines 33-102) -/

/-- The schema document for one column: registry[model].properties[col]
(decode_column! lines 35-39).  The registry stores parsed JSON, so the
property is an optional JSON value. -/
def propOf (registry : List (String × JsonValue)) (model col : String) : Option JsonValue :=
  (((registry.find? (fun e => e.1 == model)).map (fun e => e.2)).bind
    (fun s => jsonGet s "properties")).bind (fun p => jsonGet p col)

/-- The column's format hint (decode_column! line 41). -/
def propFormat (prop : Option JsonValue) : Option String :=
  (prop.bind (fun p => jsonGet p "format")).bind jsonAsStr

/-- Whether the column is a decimal/numeric-pattern type: some member of
its anyOf union carries a pattern (decode_column! lines 42-44). -/
def propIsDecimal (prop : Option JsonValue) : Bool :=
  ((((prop.bind (fun p => jsonGet p "anyOf")).bind jsonAsArr).map
    (fun types => types.any (fun t => (jsonGet t "pattern").isSome))).getD false)

/-- The column's resolved JSON type: the type field, or else the first
non-null member type of its anyOf union (decode_column! lines 46-53). -/
def propJsonType (prop : Option JsonValue) : Option String :=
  match (prop.bind (fun p => jsonGet p "type")).bind jsonAsStr with
  | some s => some s
  | Option.none =>
      ((prop.bind (fun p => jsonGet p "anyOf")).bind jsonAsArr).bind
        (fun types => types.findSome? (fun t =>
          match (jsonGet t "type").bind jsonAsStr with
          | some s => if s != "null" then some s else Option.none
          | Option.none => Option.none))

/-- Attempted JSON parse of a text column for object/array-typed columns,
falling back to plain text (decode_column! lines 87-93).  The parser
itself is serde_json's, an external collaborator, so the decoder is
parametric in it. -/
def jsonParseOrString (parse : String → Option JsonValue) (val : String) : RustValue :=
  match parse val with
  | some j => .json j
  | Option.none => .string val

/-- The decode_column! macro body (operations.rs lines 33-102): schema
hints (decimal pattern, binary format) first, then the try-cascade over
wire representations, with the boolean coercion in the integer branch and
the format/type dispatch in the text branch. -/
def decodeColumn (parse : String → Option JsonValue) (prop : Option JsonValue)
    (row : WireValue) : RustValue :=
  let format := propFormat prop
  let isDecimal := propIsDecimal prop
  let jsonType := propJsonType prop
  if isDecimal then
    match tryGetF64 row with
    | some v => .decimal (floatToString v)
    | Option.none =>
        match tryGetString row with
        | some v => .decimal v
        | Option.none => .none
  else if format = some "binary" then
    match tryGetBlob row with
    | some v => .blob v
    | Option.none =>
        match tryGetString row with
        | some v => .blob (stringToBytes v)
        | Option.none => .none
  else
    match tryGetI64 row with
    | some val => if jsonType = some "boolean" then .bool (val != 0) else .bigInt val
    | Option.none =>
        match tryGetF64 row with
        | some val => .double val
        | Option.none =>
            match tryGetBlob row with
            | some val => .blob val
            | Option.none =>
                match tryGetString row with
                | some val =>
                    match jsonType, format with
                    | _, some "date-time" => .dateTime val
                    | _, some "date" => .date val
                    | _, some "uuid" => .uuid val
                    | some "object", _ => jsonParseOrString parse val
                    | some "array", _ => jsonParseOrString parse val
                    | _, _ => .string val
                | Option.none =>
                    match tryGetBool row with
                    | some val => .bool val
                    | Option.none => .none

/-- Modelled from the spec (for the refinement claim about the hint-free
cascade): try the native wire representations in exactly the priority
order integer, float, text, blob, boolean, returning the tagged value of
the first that matches and Null when none match. -/
def specCascadeDecode (row : WireValue) : RustValue :=
  match tryGetI64 row with
  | some v => .bigInt v
  | Option.none =>
      match tryGetF64 row with
      | some v => .double v
      | Option.none =>
          match tryGetString row with
          | some v => .string v
          | Option.none =>
              match tryGetBlob row with
              | some v => .blob v
              | Option.none =>
                  match tryGetBool row with
                  | some v => .bool v
                  | Option.none => .none

/-! ### Query AST (query.rs, QueryNode / OrderBy / QueryDef) -/

/-- A filter-tree node (query.rs, struct QueryNode).  All fields beyond
the discriminator and operator are optional, exactly as deserialized. -/
inductive QueryNode where
  | mk (is_compound : Bool) (operator : String)
      (column : Option String) (value : Option JsonValue)
      (left : Option QueryNode) (right : Option QueryNode)

/-- An ordering clause (query.rs, struct OrderBy). -/
structure OrderBy where
  column : String
  direction : String

/-- A query description (query.rs, struct QueryDef). -/
structure QueryDef where
  model_name : String
  where_clause : List QueryNode
  order_by : Option (List OrderBy)
  limit : Option Nat
  offset : Option Nat

/-- QueryDef::value_to_sea_value (query.rs lines 85-101). -/
def valueToSeaValue : JsonValue → SeaValue
  | .numInt i => .bigInt (some i)
  | .numFloat f => .double (some f)
  | .str s => .string (some s)
  | .bool b => .bool (some b)
  | .null => .string Option.none
  | .arr xs => .string (some (jsonToString (.arr xs)))
  | .obj fs => .string (some (jsonToString (.obj fs)))

/-! ### Compiled conditions (sea_query interface boundary) -/

/-- A comparison operator emitted by the simple-node compiler. -/
inductive BinOper where
  | eq | ne | lt | lte | gt | gte
  deriving DecidableEq

/-- A parameterized predicate built from one simple node: a binary
comparison, an IN list, or a LIKE pattern (the sea_query SimpleExpr
shapes the source constructs in query.rs lines 56-80). -/
inductive SimpleExpr where
  | binary (col : String) (op : BinOper) (v : SeaValue)
  | inList (col : String) (vs : List SeaValue)
  | like (col : String) (pattern : String)
  deriving DecidableEq

/-- A sea_query condition tree: either one predicate or a boolean
junction of children (isAny true for Condition::any / OR, false for
Condition::all / AND).  Children are kept in insertion order. -/
inductive CondExpr where
  | expr (e : SimpleExpr)
  | cond (isAny : Bool) (children : List CondExpr)

/-- The simple-node operator dispatch (query.rs lines 56-80): the eight
comparison operators, IN splitting on whether the operand is an array
(and falling back to equality when it is not), LIKE coercing its operand
to text, and unknown operators falling back to equality. -/
def simpleExprFor (col : String) (oper : String) (v : JsonValue) : SimpleExpr :=
  match oper with
  | "==" => .binary col .eq (valueToSeaValue v)
  | "!=" => .binary col .ne (valueToSeaValue v)
  | "<" => .binary col .lt (valueToSeaValue v)
  | "<=" => .binary col .lte (valueToSeaValue v)
  | ">" => .binary col .gt (valueToSeaValue v)
  | ">=" => .binary col .gte (valueToSeaValue v)
  | "IN" =>
      match v with
      | .arr vals => .inList col (vals.map valueToSeaValue)
      | _ => .binary col .eq (valueToSeaValue v)
  | "LIKE" =>
      .like col (match v with
        | .str s => s
        | _ => jsonToString v)
  | _ => .binary col .eq (valueToSeaValue v)

/-- QueryDef::node_to_condition (query.rs lines 41-83).  A compound node
unwraps and compiles both children (a missing child is a Rust panic,
modelled as Option.none) and joins them under the matching junction; an
unknown compound operator yields an empty Condition::all.  A simple node
unwraps its column and value and wraps its predicate in a singleton
Condition::all, exactly as `Condition::all().add(expr)` does. -/
def nodeToCondition : QueryNode → Option CondExpr
  | .mk true oper _ _ (some l) (some r) =>
      match nodeToCondition l, nodeToCondition r with
      | some lc, some rc =>
          match oper with
          | "OR" => some (.cond true [lc, rc])
          | "AND" => some (.cond false [lc, rc])
          | _ => some (.cond false [])
      | _, _ => Option.none
  | .mk true _ _ _ _ _ => Option.none
  | .mk false oper (some col) (some v) _ _ =>
      some (.cond false [.expr (simpleExprFor col oper v)])
  | .mk false _ _ _ _ _ => Option.none

/-- The compiled children of the top-level where clause, in order; any
panic while compiling a node propagates (QueryDef::to_condition's loop,
query.rs lines 33-39). -/
def whereToCondList : List QueryNode → Option (List CondExpr)
  | [] => some []
  | n :: ns =>
      match nodeToCondition n, whereToCondList ns with
      | some c, some cs => some (c :: cs)
      | _, _ => Option.none

/-- QueryDef::to_condition (query.rs lines 33-39): the where-clause
entries compiled in order and joined under a top-level Condition::all. -/
def QueryDef.toCondition (q : QueryDef) : Option CondExpr :=
  (whereToCondList q.where_clause).map (fun cs => .cond false cs)

/-- Well-formedness of a filter tree: every compound node carries both
children (recursively well-formed) and every simple node carries a
column and a value — the precondition under which node_to_condition's
unwraps cannot panic. -/
def QueryNode.wf : QueryNode → Bool
  | .mk true _ _ _ (some l) (some r) => l.wf && r.wf
  | .mk true _ _ _ _ _ => false
  | .mk false _ (some _) (some _) _ _ => true
  | .mk false _ _ _ _ _ => false

/-! ### SQL realization of a condition tree (sea_query interface boundary) -/

/-- SQLite text for a comparison operator. -/
def renderBinOper : BinOper → String
  | .eq => "="
  | .ne => "<>"
  | .lt => "<"
  | .lte => "<="
  | .gt => ">"
  | .gte => ">="

/-- Join strings with a separator. -/
def joinSep (sep : String) : List String → String
  | [] => ""
  | [x] => x
  | x :: y :: xs => x ++ sep ++ joinSep sep (y :: xs)

/-- Modelled from the spec: sea_query's parameterized SQL realization of
one predicate — the SQL text with one placeholder per bound value and
the bound values in placeholder order.  (The sea_query crate is an
external dependency; the spec fixes the observable contract: binding
order must exactly match the left-to-right emission order of
placeholders.) -/
def renderSimpleExpr : SimpleExpr → String × List SeaValue
  | .binary col op v => ("\"" ++ col ++ "\" " ++ renderBinOper op ++ " ?", [v])
  | .inList col vs =>
      if vs.isEmpty then ("1 = 2", [])
      else ("\"" ++ col ++ "\" IN (" ++ joinSep ", " (vs.map (fun _ => "?")) ++ ")", vs)
  | .like col pat => ("\"" ++ col ++ "\" LIKE ?", [.string (some pat)])

mutual

/-- Modelled from the spec: sea_query's SQL realization of a condition
tree — children joined by the junction's boolean connective under
explicit parenthesization (a junction of two or more children is
parenthesized, a singleton junction is transparent, an empty junction
renders the neutral TRUE), bound values flattened left to right. -/
def renderCondExpr : CondExpr → String × List SeaValue
  | .expr e => renderSimpleExpr e
  | .cond _ [] => ("TRUE", [])
  | .cond _ [c] => renderCondExpr c
  | .cond isAny (c :: c2 :: cs) =>
      let parts := renderCondList (c :: c2 :: cs)
      ("(" ++ joinSep (if isAny then " OR " else " AND ") (parts.map Prod.fst) ++ ")",
       (parts.map Prod.snd).flatten)

/-- Pointwise rendering of a list of condition children. -/
def renderCondList : List CondExpr → List (String × List SeaValue)
  | [] => []
  | c :: cs => renderCondExpr c :: renderCondList cs

end

/-- Number of parameter placeholders in a SQL fragment. -/
def countPlaceholders (sql : String) : Nat :=
  sql.toList.countP (fun c => c == '?')

/-! ### DDL foreign-key compilation (schema.rs, internal_create_tables lines 148-167) -/

/-- sea_query::ForeignKeyAction as the source selects it. -/
inductive ForeignKeyAction where
  | cascade | restrict | setNull | setDefault | noAction
  deriving DecidableEq

/-- Uppercasing as Rust's str::to_uppercase performs it on the ASCII
strings this dispatch ever sees (character-wise uppercase). -/
def toUpperStr (s : String) : String :=
  String.mk (s.data.map Char.toUpper)

/-- The on_delete string dispatch (schema.rs lines 152-158): the
uppercased string against four recognized spellings, anything else —
including the absent-value default "CASCADE" — selecting Cascade. -/
def onDeleteAction (s : String) : ForeignKeyAction :=
  match toUpperStr s with
  | "RESTRICT" => .restrict
  | "SET NULL" => .setNull
  | "SET DEFAULT" => .setDefault
  | "NO ACTION" => .noAction
  | _ => .cascade

/-- The foreign-key clause the DDL compiler emits: from
{table}.{column} to {toTable}.{toColumn} with a delete action (the
ForeignKey::create builder calls, schema.rs lines 160-166). -/
structure FkClause where
  fromTable : String
  fromColumn : String
  toTable : String
  toColumn : String
  onDelete : ForeignKeyAction
  deriving DecidableEq

/-- The clause built for one column's foreign_key metadata (schema.rs
lines 148-167): to_table read from the metadata (empty when absent), the
referenced column always "id" (the builder passes the literal
Alias::new("id")), and the delete action from the on_delete string,
"CASCADE" when absent. -/
def fkClauseFor (tableLower colName : String) (fkInfo : JsonValue) : FkClause :=
  let toTable := ((jsonGet fkInfo "to_table").bind jsonAsStr).getD ""
  let onDeleteStr := ((jsonGet fkInfo "on_delete").bind jsonAsStr).getD "CASCADE"
  { fromTable := tableLower
    fromColumn := colName
    toTable := toTable
    toColumn := "id"
    onDelete := onDeleteAction onDeleteStr }

/-- Whether and how a column contributes a foreign-key clause: only when
its foreign_key metadata is present and is an object (schema.rs line
148). -/
def columnFkClause (tableLower colName : String) (colInfo : JsonValue) : Option FkClause :=
  match jsonGet colInfo "foreign_key" with
  | some (.obj fields) => some (fkClauseFor tableLower colName (.obj fields))
  | _ => Option.none

/-! ### Connection / transaction / identity-map state layer
(state.rs, connection.rs, operations.rs) -/

/-- An opaque checked-out connection handle. -/
abbrev Conn := Nat

/-- The transaction registry: opaque transaction identifier to exclusive
connection (state.rs, TRANSACTION_REGISTRY; keys are unique). -/
abbrev TransactionRegistry := List (String × Conn)

/-- DashMap::get on the transaction registry. -/
def registryGet (reg : TransactionRegistry) (txId : String) : Option Conn :=
  (reg.find? (fun e => e.1 == txId)).map (fun e => e.2)

/-- DashMap::remove on the transaction registry. -/
def registryRemove (reg : TransactionRegistry) (txId : String) : TransactionRegistry :=
  reg.filter (fun e => e.1 != txId)

/-- The errors the state layer surfaces (the distinct PyRuntimeError
messages raised in operations.rs and connection.rs). -/
inductive FerroError where
  | engineNotInitialized
  | transactionNotFound
  | sqlExecutionError (msg : String)
  | modelNotFound (name : String)
  deriving DecidableEq

/-- The get_conn! macro (operations.rs lines 18-31): a transaction
identifier resolves to its registered connection, an absent identifier
or an identifier not in the registry resolves to nothing. -/
def getConn (reg : TransactionRegistry) (txId : Option String) : Option Conn :=
  match txId with
  | some t => registryGet reg t
  | Option.none => Option.none

/-- Which connection a data operation executes on. -/
inductive ConnChoice where
  | transaction (conn : Conn)
  | pool
  deriving DecidableEq

/-- The shared connection-resolution prologue of every data operation
(fetch_all, fetch_one, fetch_filtered, count_filtered, save_record,
delete_record, delete_filtered, update_filtered — operations.rs, the
`(pool, tx_conn)` block each of them opens with): fail when the engine
is uninitialized, otherwise run on the transaction's connection when
get_conn! resolved one and on the general pool when it did not. -/
def resolveConn (engine : Option Conn) (reg : TransactionRegistry)
    (txId : Option String) : Except FerroError ConnChoice :=
  match engine with
  | Option.none => .error .engineNotInitialized
  | some _ =>
      match getConn reg txId with
      | some c => .ok (.transaction c)
      | Option.none => .ok .pool

/-- commit_transaction (operations.rs lines 154-168): remove the
registry entry, failing with TransactionNotFound when the identifier is
not registered, and hand back the connection the COMMIT statement then
runs on. -/
def commitTransaction (reg : TransactionRegistry) (txId : String) :
    Except FerroError (TransactionRegistry × Conn) :=
  match registryGet reg txId with
  | Option.none => .error .transactionNotFound
  | some c => .ok (registryRemove reg txId, c)

/-- rollback_transaction (operations.rs lines 170-184): identical
registry handling, the connection then runs ROLLBACK. -/
def rollbackTransaction (reg : TransactionRegistry) (txId : String) :
    Except FerroError (TransactionRegistry × Conn) :=
  match registryGet reg txId with
  | Option.none => .error .transactionNotFound
  | some c => .ok (registryRemove reg txId, c)

/-- The process-wide mutable state (state.rs): the optional pool handle,
the identity map keyed by (model name, primary-key text), the schema
registry, and the transaction registry.  Identity-map handles are opaque
host objects, modelled as naturals. -/
structure EngineState where
  engine : Option Conn
  identityMap : List ((String × String) × Nat)
  modelRegistry : List (String × JsonValue)
  txRegistry : TransactionRegistry

/-- reset_engine (connection.rs lines 61-68): drop the pool handle and
clear the identity map; the schema registry and transaction registry are
not touched.  (lib.rs in src/ carries a legacy self-contained module
with an older reset_engine; it declares none of the modules the spec
describes and is not part of the modular crate.) -/
def resetEngine (st : EngineState) : EngineState :=
  { st with engine := Option.none, identityMap := [] }

/-- delete_filtered's state effect (operations.rs lines 919-962): fail
when the engine is uninitialized; execute the compiled DELETE (the SQL
outcome is the external driver's, passed as `exec` — its rows-affected
count on success); on failure propagate the error with the state
untouched; only after confirmed success retain in the identity map
exactly the entries whose model differs from the target model. -/
def deleteFiltered (st : EngineState) (model : String)
    (exec : Except String Nat) : EngineState × Except FerroError Nat :=
  match st.engine with
  | Option.none => (st, .error .engineNotInitialized)
  | some _ =>
      match exec with
      | .error e => (st, .error (.sqlExecutionError e))
      | .ok n =>
          ({ st with identityMap := st.identityMap.filter (fun e => e.1.1 != model) }, .ok n)

/-- update_filtered's state effect (operations.rs lines 966-1031): the
same shape as delete_filtered — the UPDATE statement's construction is
modelled by the query compiler above, and the identity-map invalidation
happens only after the driver reports success. -/
def updateFiltered (st : EngineState) (model : String)
    (exec : Except String Nat) : EngineState × Except FerroError Nat :=
  match st.engine with
  | Option.none => (st, .error .engineNotInitialized)
  | some _ =>
      match exec with
      | .error e => (st, .error (.sqlExecutionError e))
      | .ok n =>
          ({ st with identityMap := st.identityMap.filter (fun e => e.1.1 != model) }, .ok n)

/-! ## Theorems -/

/-- C9: reset sets the connection-pool handle to uninitialized and
removes every identity-map entry, and leaves the schema registry exactly
as it was before the call (connection.rs reset_engine). -/
theorem reset_drops_pool_clears_map_keeps_registry (st : EngineState) :
    (resetEngine st).engine = Option.none ∧ (resetEngine st).identityMap = [] ∧
    (resetEngine st).modelRegistry = st.modelRegistry :=
  ⟨rfl, rfl, rfl⟩

/-- C4 counterexample: compiling a simple IN node whose value is not an
array does not fail at all — query.rs has no error channel in
node_to_condition — and in particular compiles the node into an equality
predicate against the non-array value. -/
theorem in_nonarray_compiles_to_equality :
    nodeToCondition (.mk false "IN" (some "tags") (some (.numInt 5)) Option.none Option.none)
      = some (.cond false [.expr (.binary "tags" .eq (.bigInt (some 5)))]) := rfl

/-- C4 amended: for every simple IN node whose value is not an array,
the compiler emits an equality comparison of the column against that
value (no InvalidOperand error exists; query.rs lines 63-71). -/
theorem in_nonarray_equality_general (col : String) (v : JsonValue)
    (h : v.isArr = false) :
    simpleExprFor col "IN" v = .binary col .eq (valueToSeaValue v) := by
  cases v <;> first
    | rfl
    | simp [JsonValue.isArr] at h

/-- C4 witness: the amended statement at a concrete non-array operand. -/
theorem in_nonarray_equality_general_witness :
    simpleExprFor "age" "IN" (.numInt 7) = .binary "age" .eq (.bigInt (some 7)) :=
  in_nonarray_equality_general "age" (.numInt 7) rfl

/-- C6 counterexample: a foreign key declaring to_column "uid" still
produces a clause referencing column "id" (schema.rs line 163 passes the
literal "id"), and the spec's own enum spelling "set-null" is not
recognized by the uppercase dispatch and falls back to cascade. -/
theorem fk_ignores_to_column_and_hyphenated_actions :
    (fkClauseFor "post" "author_id"
        (.obj [("to_table", .str "users"), ("to_column", .str "uid")])).toColumn = "id" ∧
    (fkClauseFor "post" "author_id"
        (.obj [("to_table", .str "users"), ("to_column", .str "uid")])).toColumn ≠ "uid" ∧
    (fkClauseFor "post" "author_id"
        (.obj [("to_table", .str "users"), ("on_delete", .str "set-null")])).onDelete
      = .cascade ∧
    ForeignKeyAction.cascade ≠ ForeignKeyAction.setNull :=
  ⟨rfl, by decide, by decide, by decide⟩

/-- C6 amended: for every column with foreign_key metadata the emitted
clause references {to_table}.id — the to_column metadata is ignored and
the referenced column is always "id" — and carries the on_delete action
obtained by matching the uppercased string against RESTRICT / SET NULL /
SET DEFAULT / NO ACTION, defaulting to cascade when the string is absent
(the source substitutes "CASCADE") or matches none of those spellings. -/
theorem fk_clause_targets_id_with_cascade_default
    (tableLower colName : String) (fkInfo : JsonValue) (s : String)
    (h1 : toUpperStr s ≠ "RESTRICT") (h2 : toUpperStr s ≠ "SET NULL")
    (h3 : toUpperStr s ≠ "SET DEFAULT") (h4 : toUpperStr s ≠ "NO ACTION") :
    (fkClauseFor tableLower colName fkInfo).toColumn = "id" ∧
    (fkClauseFor tableLower colName fkInfo).toTable
      = ((jsonGet fkInfo "to_table").bind jsonAsStr).getD "" ∧
    (fkClauseFor tableLower colName fkInfo).onDelete
      = onDeleteAction (((jsonGet fkInfo "on_delete").bind jsonAsStr).getD "CASCADE") ∧
    onDeleteAction "CASCADE" = .cascade ∧
    onDeleteAction s = .cascade := by
  refine ⟨rfl, rfl, rfl, rfl, ?_⟩
  unfold onDeleteAction
  split <;> simp_all

/-- C6 witness: the amended statement at concrete inputs, including the
unrecognized spelling "set-null". -/
theorem fk_clause_targets_id_witness :
    (fkClauseFor "post" "author_id" (.obj [])).toColumn = "id" ∧
    (fkClauseFor "post" "author_id" (.obj [])).toTable = "" ∧
    (fkClauseFor "post" "author_id" (.obj [])).onDelete = onDeleteAction "CASCADE" ∧
    onDeleteAction "CASCADE" = .cascade ∧
    onDeleteAction "set-null" = .cascade :=
  fk_clause_targets_id_with_cascade_default "post" "author_id" (.obj []) "set-null"
    (by decide) (by decide) (by decide) (by decide)

/-- C2: for every column whose schema declares a decimal/numeric-pattern
type, decoding a row value stored as text yields Decimal carrying the
column's original text representation exactly — the float retrieval
cannot match a text-stored value, so no float re-serialization occurs
(decode_column! lines 55-62). -/
theorem decimal_text_preserved (parse : String → Option JsonValue)
    (prop : Option JsonValue) (s : String) (h : propIsDecimal prop = true) :
    decodeColumn parse prop (.text s) = .decimal s := by
  simp [decodeColumn, h, tryGetF64, tryGetString]

/-- C2 witness: a decimal-pattern column stored as text "12.50" decodes
to Decimal("12.50"), trailing zero preserved. -/
theorem decimal_text_preserved_witness :
    propIsDecimal (some (.obj [("anyOf", .arr [.obj [("pattern", .str "decimal")]])])) = true ∧
    decodeColumn (fun _ => Option.none)
      (some (.obj [("anyOf", .arr [.obj [("pattern", .str "decimal")]])]))
      (.text "12.50") = .decimal "12.50" :=
  ⟨rfl, decimal_text_preserved (fun _ => Option.none) _ "12.50" rfl⟩

/-- C8: for every column whose resolved JSON type is boolean (and whose
earlier-checked hints, decimal pattern and binary format, are absent),
decoding an integer-affinity value v yields Boolean(v != 0), never an
Integer tagged value (decode_column! lines 71-77). -/
theorem boolean_integer_coercion (parse : String → Option JsonValue)
    (prop : Option JsonValue) (v : Int)
    (h1 : propIsDecimal prop = false) (h2 : propFormat prop ≠ some "binary")
    (h3 : propJsonType prop = some "boolean") :
    decodeColumn parse prop (.int v) = .bool (v != 0) ∧
    ∀ i : Int, decodeColumn parse prop (.int v) ≠ .bigInt i := by
  constructor
  · simp [decodeColumn, h1, h2, h3, tryGetI64]
  · intro i
    simp [decodeColumn, h1, h2, h3, tryGetI64]

/-- C8 witness: integer 0 decodes to Boolean(false), integer 1 to
Boolean(true), and neither decodes to an Integer value. -/
theorem boolean_integer_coercion_witness :
    decodeColumn (fun _ => Option.none) (some (.obj [("type", .str "boolean")]))
      (.int 0) = .bool false ∧
    decodeColumn (fun _ => Option.none) (some (.obj [("type", .str "boolean")]))
      (.int 1) = .bool true ∧
    ∀ i : Int, decodeColumn (fun _ => Option.none)
      (some (.obj [("type", .str "boolean")])) (.int 1) ≠ .bigInt i :=
  ⟨(boolean_integer_coercion (fun _ => Option.none)
      (some (.obj [("type", .str "boolean")])) 0 rfl (by decide) rfl).1,
   (boolean_integer_coercion (fun _ => Option.none)
      (some (.obj [("type", .str "boolean")])) 1 rfl (by decide) rfl).1,
   (boolean_integer_coercion (fun _ => Option.none)
      (some (.obj [("type", .str "boolean")])) 1 rfl (by decide) rfl).2⟩

/-- C3: for every column without an applicable schema hint, the decoder
agrees with the spec's cascade — the tagged value of the first matching
wire representation in the priority order integer, float, text, blob,
boolean, and Null when none match.  (The source tries blob before text;
since each wire value matches exactly one typed retrieval, the two
orders are extensionally equal.) -/
theorem hintless_cascade (parse : String → Option JsonValue)
    (prop : Option JsonValue) (w : WireValue)
    (h1 : propIsDecimal prop = false) (h2 : propFormat prop = Option.none)
    (h3 : propJsonType prop = Option.none) :
    decodeColumn parse prop w = specCascadeDecode w := by
  cases w <;> simp [decodeColumn, specCascadeDecode, h1, h2, h3,
    tryGetI64, tryGetF64, tryGetString, tryGetBlob, tryGetBool]

/-- C3 witness: the cascade agreement at a hint-free column over each
wire representation, including the Null default. -/
theorem hintless_cascade_witness :
    decodeColumn (fun _ => Option.none) Option.none (.text "hi")
      = specCascadeDecode (.text "hi") ∧
    decodeColumn (fun _ => Option.none) Option.none .null
      = specCascadeDecode .null ∧
    specCascadeDecode (.text "hi") = .string "hi" ∧
    specCascadeDecode .null = .none :=
  ⟨hintless_cascade (fun _ => Option.none) Option.none (.text "hi") rfl rfl rfl,
   hintless_cascade (fun _ => Option.none) Option.none .null rfl rfl rfl,
   rfl, rfl⟩

/-- C1 counterexample: the shared data-operation prologue, handed a
transaction identifier absent from an empty registry on an initialized
engine, resolves to the general pool and proceeds — it does not fail
with TransactionNotFound (get_conn! yields None and every data operation
then falls back to the pool). -/
theorem unknown_txid_falls_back_to_pool :
    resolveConn (some 0) [] (some "5d1e0000-aaaa-bbbb-cccc-000000000000") = .ok .pool ∧
    resolveConn (some 0) [] (some "5d1e0000-aaaa-bbbb-cccc-000000000000")
      ≠ .error .transactionNotFound := by
  refine ⟨rfl, ?_⟩
  intro h
  rw [show resolveConn (some 0) [] (some "5d1e0000-aaaa-bbbb-cccc-000000000000")
        = Except.ok ConnChoice.pool from rfl] at h
  exact Except.noConfusion h

/-- C1 amended: a transaction identifier not present in the registry is
rejected with TransactionNotFound only by commit_transaction and
rollback_transaction; every data operation (fetch_all, fetch_one,
fetch_filtered, count_filtered, save_record, delete_record,
delete_filtered, update_filtered) instead silently falls back to the
general pool connection and proceeds. -/
theorem missing_txid_errors_only_commit_rollback
    (engine : Conn) (reg : TransactionRegistry) (txId : String)
    (h : registryGet reg txId = Option.none) :
    commitTransaction reg txId = .error .transactionNotFound ∧
    rollbackTransaction reg txId = .error .transactionNotFound ∧
    resolveConn (some engine) reg (some txId) = .ok .pool := by
  refine ⟨?_, ?_, ?_⟩ <;>
    simp [commitTransaction, rollbackTransaction, resolveConn, getConn, h]

/-- C1 witness: the amended statement on a concrete registry that does
not contain the addressed identifier. -/
theorem missing_txid_errors_only_commit_rollback_witness :
    commitTransaction [("tx-a", 1)] "tx-b" = .error .transactionNotFound ∧
    rollbackTransaction [("tx-a", 1)] "tx-b" = .error .transactionNotFound ∧
    resolveConn (some 0) [("tx-a", 1)] (some "tx-b") = .ok .pool :=
  missing_txid_errors_only_commit_rollback 0 [("tx-a", 1)] "tx-b" rfl

/-- C7: after delete_filtered or update_filtered for a model returns
successfully, exactly the identity-map entries keyed by that model have
been removed (entries of every other model are kept, in order); when the
underlying SQL execution fails, the whole state — the identity map in
particular — is left unchanged. -/
theorem bulk_ops_invalidate_model_only_on_success (st : EngineState)
    (model : String) (exec : Except String Nat) :
    ((deleteFiltered st model exec).2.isOk = true →
        (deleteFiltered st model exec).1.identityMap
          = st.identityMap.filter (fun e => e.1.1 != model)) ∧
    ((updateFiltered st model exec).2.isOk = true →
        (updateFiltered st model exec).1.identityMap
          = st.identityMap.filter (fun e => e.1.1 != model)) ∧
    (∀ pk handle, (deleteFiltered st model exec).2.isOk = true →
        ((model, pk), handle) ∉ (deleteFiltered st model exec).1.identityMap) ∧
    (∀ msg, exec = .error msg →
        (deleteFiltered st model exec).1 = st ∧ (updateFiltered st model exec).1 = st) := by
  obtain ⟨eng, im, mr, tr⟩ := st
  cases eng <;> cases exec <;>
    simp [deleteFiltered, updateFiltered, List.mem_filter, Except.isOk, Except.toBool]

/-- C7 witness: a concrete two-model identity map — success removes the
target model's entry and keeps the other model's entry; a failed
execution leaves the state untouched. -/
theorem bulk_ops_invalidate_witness :
    (deleteFiltered ⟨some 1, [(("User", "1"), 10), (("Post", "2"), 20)], [], []⟩
        "User" (.ok 3)).1.identityMap = [(("Post", "2"), 20)] ∧
    (deleteFiltered ⟨some 1, [(("User", "1"), 10), (("Post", "2"), 20)], [], []⟩
        "User" (.error "disk full")).1
      = ⟨some 1, [(("User", "1"), 10), (("Post", "2"), 20)], [], []⟩ := by
  have hok := bulk_ops_invalidate_model_only_on_success
    ⟨some 1, [(("User", "1"), 10), (("Post", "2"), 20)], [], []⟩ "User" (.ok 3)
  have herr := bulk_ops_invalidate_model_only_on_success
    ⟨some 1, [(("User", "1"), 10), (("Post", "2"), 20)], [], []⟩ "User" (.error "disk full")
  exact ⟨(hok.1 rfl).trans (by rfl), (herr.2.2.2 "disk full" rfl).1⟩

/-- C5: the compound OR example compiles both children in order —
directly from query.rs, the condition tree is the OR junction of the two
comparison predicates — and its (spec-modelled) SQL realization is a
parenthesized OR with exactly two placeholders bound to 18 then 13 in
left-to-right order; in general a compound node compiles both children
and joins them under its boolean connective, and a two-child junction is
rendered under explicit parenthesization with the bound values
concatenated left to right. -/
theorem compound_or_parenthesized_two_binds :
    (QueryDef.toCondition
        ⟨"User",
         [.mk true "OR" Option.none Option.none
            (some (.mk false ">=" (some "age") (some (.numInt 18)) Option.none Option.none))
            (some (.mk false "<" (some "age") (some (.numInt 13)) Option.none Option.none))],
         Option.none, Option.none, Option.none⟩
      = some (.cond false [.cond true
          [.cond false [.expr (.binary "age" .gte (.bigInt (some 18)))],
           .cond false [.expr (.binary "age" .lt (.bigInt (some 13)))]]])) ∧
    (renderCondExpr (.cond false [.cond true
          [.cond false [.expr (.binary "age" .gte (.bigInt (some 18)))],
           .cond false [.expr (.binary "age" .lt (.bigInt (some 13)))]]])
      = ("(\"age\" >= ? OR \"age\" < ?)", [.bigInt (some 18), .bigInt (some 13)])) ∧
    countPlaceholders "(\"age\" >= ? OR \"age\" < ?)" = 2 ∧
    (∀ (lcol lop rcol rop : String) (lv rv : JsonValue),
        nodeToCondition (.mk true "OR" Option.none Option.none
            (some (.mk false lop (some lcol) (some lv) Option.none Option.none))
            (some (.mk false rop (some rcol) (some rv) Option.none Option.none)))
          = some (.cond true
              [.cond false [.expr (simpleExprFor lcol lop lv)],
               .cond false [.expr (simpleExprFor rcol rop rv)]]) ∧
        nodeToCondition (.mk true "AND" Option.none Option.none
            (some (.mk false lop (some lcol) (some lv) Option.none Option.none))
            (some (.mk false rop (some rcol) (some rv) Option.none Option.none)))
          = some (.cond false
              [.cond false [.expr (simpleExprFor lcol lop lv)],
               .cond false [.expr (simpleExprFor rcol rop rv)]])) ∧
    (∀ (isAny : Bool) (c1 c2 : CondExpr),
        renderCondExpr (.cond isAny [c1, c2])
          = ("(" ++ (renderCondExpr c1).1 ++ (if isAny then " OR " else " AND ")
                ++ (renderCondExpr c2).1 ++ ")",
             (renderCondExpr c1).2 ++ (renderCondExpr c2).2)) := by
  refine ⟨rfl, rfl, rfl, ?_, ?_⟩
  · intro lcol lop rcol rop lv rv
    exact ⟨rfl, rfl⟩
  · intro isAny c1 c2
    cases isAny <;> simp [renderCondExpr, renderCondList, joinSep, String.append_assoc]

/-- Helper for totality: a well-formed node compiles without panicking
(each unwrap in node_to_condition is guarded by well-formedness). -/
theorem nodeToCondition_isSome_of_wf (n : QueryNode) :
    n.wf = true → (nodeToCondition n).isSome = true := by
  induction n using QueryNode.wf.induct with
  | case1 oper c v l r ihl ihr =>
      intro h
      simp only [QueryNode.wf, Bool.and_eq_true] at h
      obtain ⟨lc, hlc⟩ := Option.isSome_iff_exists.mp (ihl h.1)
      obtain ⟨rc, hrc⟩ := Option.isSome_iff_exists.mp (ihr h.2)
      simp only [nodeToCondition, hlc, hrc]
      split <;> rfl
  | case2 => simp [QueryNode.wf]
  | case3 => simp [nodeToCondition]
  | case4 => simp [QueryNode.wf]

/-- C10: query compilation is total — QueryDef::to_condition returns a
condition, hitting no unwrap panic — whenever every compound node of the
where-clause tree carries both children and every simple node carries
both a column and a value. -/
theorem to_condition_total_on_wf (q : QueryDef)
    (h : ∀ n ∈ q.where_clause, n.wf = true) :
    (QueryDef.toCondition q).isSome = true := by
  have hlist : ∀ l : List QueryNode, (∀ n ∈ l, n.wf = true) →
      (whereToCondList l).isSome = true := by
    intro l
    induction l with
    | nil => intro _; rfl
    | cons n ns ih =>
        intro hl
        obtain ⟨c, hc⟩ := Option.isSome_iff_exists.mp
          (nodeToCondition_isSome_of_wf n (hl n (by simp)))
        obtain ⟨cs, hcs⟩ := Option.isSome_iff_exists.mp
          (ih (fun m hm => hl m (by simp [hm])))
        simp [whereToCondList, hc, hcs]
  obtain ⟨cs, hcs⟩ := Option.isSome_iff_exists.mp (hlist q.where_clause h)
  simp [QueryDef.toCondition, hcs]

/-- C10 witness: totality at a concrete well-formed query. -/
theorem to_condition_total_on_wf_witness :
    (QueryDef.toCondition
        ⟨"User",
         [.mk false "==" (some "id") (some (.numInt 1)) Option.none Option.none],
         Option.none, Option.none, Option.none⟩).isSome = true :=
  to_condition_total_on_wf
    ⟨"User",
     [.mk false "==" (some "id") (some (.numInt 1)) Option.none Option.none],
     Option.none, Option.none, Option.none⟩ (by decide)

end Ferro
